import Mathlib

/-!
Verification development for the provisioning utilities:
a shallow embedding of the AT-command response scanner of
`certifcate_installer.py` (`wait_for_prompt`) and of the bulk-provisioning
reconciliation logic of `nrf_cloud_provision.py` (`parse_err_msg`,
`update_device_list_err`, `update_device_list_ok`,
`get_provisioning_results` and the result-determination tail of
`do_provisioning`), together with theorems settling the specification
claims about them.

Byte strings (Python `bytes`) are modelled as `List Char` restricted by
usage to byte values; Python `str` is modelled as `String` or `List Char`
as convenient.  Machine I/O (serial reads, HTTP calls, `json.loads`,
`ast.literal_eval`) is abstracted into explicit input lists and injected
decoder functions; everything else is translated statement by statement
from the Python source.
-/

namespace ProvisioningUtils

/-! ### Python string primitives -/

/-- Python substring containment `needle in hay` for `bytes`/`str`
(`True` when `needle` occurs contiguously in `hay`; the empty needle is
contained in everything). -/
def listContains (hay needle : List Char) : Bool :=
  needle.isPrefixOf hay ||
    match hay with
    | [] => false
    | _ :: t => listContains t needle

/-- Python `str.find(sub)`: index of the first occurrence of `sub`, or `-1`. -/
def pyFind (sub : List Char) : List Char → Int
  | [] => if sub = [] then 0 else -1
  | c :: t =>
    if sub.isPrefixOf (c :: t) then 0
    else
      let r := pyFind sub t
      if r = -1 then -1 else r + 1

/-- Python `str.rfind(sub)`: index of the last occurrence of `sub`, or `-1`. -/
def pyRfind (sub : List Char) : List Char → Int
  | [] => if sub = [] then 0 else -1
  | c :: t =>
    let r := pyRfind sub t
    if r ≠ -1 then r + 1
    else if sub.isPrefixOf (c :: t) then 0 else -1

/-- Whitespace characters recognised by Python `str.split()` with no
argument (ASCII range). -/
def isPyWs (c : Char) : Bool :=
  c = ' ' || c = '\t' || c = '\n' || c = '\r' || c = '\x0b' || c = '\x0c'

/-- Helper for `pySplitWs`: accumulates the current (reversed) token. -/
def splitWsAux : List Char → List Char → List (List Char)
  | [], cur => if cur = [] then [] else [cur.reverse]
  | c :: t, cur =>
    if isPyWs c then
      if cur = [] then splitWsAux t [] else cur.reverse :: splitWsAux t []
    else splitWsAux t (c :: cur)

/-- Python `str.split()` with no argument: split on runs of whitespace,
discarding empty tokens. -/
def pySplitWs (cs : List Char) : List (List Char) :=
  splitWsAux cs []

/-- Numeric value of a list of decimal digits (Python `int(s)` for an
all-digit `s`). -/
def digitsVal (cs : List Char) : Nat :=
  cs.foldl (fun a c => 10 * a + (c.toNat - 48)) 0

/-- Python `s.isdigit()` for an ASCII token: nonempty and all digits. -/
def isDigitTok (t : List Char) : Bool :=
  decide (t ≠ []) && t.all Char.isDigit

/-! ### Python `repr` of a bytes object

`wait_for_prompt` tests `str(store) in str(line)` as a fallback for the
capture token, where `str` of a `bytes` object is its `repr`.  We model
the CPython rendering: prefix `b`, a quote character (single quote unless
the bytes contain `'` and no `"`), each byte escaped. -/

/-- Quote character chosen by CPython for the repr of a bytes object. -/
def bytesReprQuote (bs : List Char) : Char :=
  if '\'' ∈ bs ∧ ¬ ('"' ∈ bs) then '"' else '\''

/-- Lowercase hex digit of `n % 16`. -/
def hexDigit (n : Nat) : Char :=
  let m := n % 16
  if m < 10 then Char.ofNat (48 + m) else Char.ofNat (87 + m)

/-- CPython escaping of one byte inside a bytes repr with quote `q`. -/
def reprEscapeChar (q c : Char) : List Char :=
  if c = '\\' then ['\\', '\\']
  else if c = q then ['\\', q]
  else if c = '\t' then ['\\', 't']
  else if c = '\n' then ['\\', 'n']
  else if c = '\r' then ['\\', 'r']
  else if 0x20 ≤ c.toNat ∧ c.toNat ≤ 0x7e then [c]
  else ['\\', 'x', hexDigit (c.toNat / 16), hexDigit (c.toNat % 16)]

/-- Python `str(b)` = `repr(b)` for a bytes object `b`. -/
def pyBytesRepr (bs : List Char) : List Char :=
  let q := bytesReprQuote bs
  'b' :: q :: ((bs.map (reprEscapeChar q)).flatten ++ [q])

/-! ### `certifcate_installer.py`: `wait_for_prompt` (serial path)

The scanner reads lines from the serial port (`ser.readline()`), which
blocks for at most `serial_timeout = 1` second and yields `b''` on a read
timeout.  We model the port's behaviour as a finite list `lines` of the
lines it yields, after which every further read times out (yields `b''`).

The Python locals `found`/`retval`/`output`/`timeout` become arguments of
the recursion; the local `line` is threaded as `lastLine : Option _`
because the statement `lf_done = b'\n' in line` after the loop raises
`UnboundLocalError` when the loop body never ran (so `line` was never
assigned); that crash is a distinct result.  A negative remaining budget
with no further data makes the Python loop spin forever; that is the
`diverge` result. -/

/-- `serial_timeout` global of `certifcate_installer.py`. -/
def serial_timeout : Int := 1

/-- Result of one `wait_for_prompt` call. -/
inductive ScanResult where
  /-- `UnboundLocalError` at `lf_done = b'\n' in line` (loop never ran). -/
  | crash : ScanResult
  /-- the `while` loop never terminates. -/
  | diverge : ScanResult
  /-- normal return `(retval, output)`; `finalTimeout` is the remaining
  budget on exit (`0` means the `Serial timeout` message was printed). -/
  | ok (retval : Bool) (output : Option (List Char)) (finalTimeout : Int) : ScanResult
deriving DecidableEq

/-- `val2 != None and val2 in line`. -/
def optContains (v2 : Option (List Char)) (line : List Char) : Bool :=
  match v2 with
  | none => false
  | some v => listContains line v

/-- `store != None and (store in line or str(store) in str(line))`. -/
def optCapture (store : Option (List Char)) (line : List Char) : Bool :=
  match store with
  | none => false
  | some s => listContains line s || listContains (pyBytesRepr line) (pyBytesRepr s)

/-- The `while not found and timeout != 0` loop of `wait_for_prompt`
(serial path), followed by the post-loop accesses.  Lines are consumed
from `lines`; once `lines` is exhausted every read yields `b''`.
The echo `sys.stdout.write('<- ' + ...)` is console I/O and is not
modelled. -/
def scanLines (val1 : List Char) (val2 store : Option (List Char)) :
    List (List Char) → Int → Option (List Char) → Option (List Char) → ScanResult
  | [], timeout, output, lastLine =>
    if timeout = 0 then
      match lastLine with
      | none => .crash
      | some _ => .ok false output 0
    else if 0 < timeout then
      -- every remaining read yields b'': the budget is decremented by
      -- serial_timeout = 1 until it reaches 0, then the loop exits
      .ok false output 0
    else .diverge
  | l :: rest, timeout, output, lastLine =>
    if timeout = 0 then
      match lastLine with
      | none => .crash
      | some _ => .ok false output 0
    else if l = ['\r', '\n'] then
      -- skip the initial CRLF artifact
      scanLines val1 val2 store rest timeout output (some l)
    else if l = [] then
      -- read timeout: if timeout > 0, timeout -= serial_timeout
      scanLines val1 val2 store rest
        (if 0 < timeout then timeout - serial_timeout else timeout) output (some l)
    else if listContains l val1 then .ok true output timeout
    else if optContains val2 l then .ok false output timeout
    else if optCapture store l then scanLines val1 val2 store rest timeout (some l) (some l)
    else scanLines val1 val2 store rest timeout output (some l)

/-- `wait_for_prompt(val1, val2, timeout, store)` on the serial path,
with the port's line stream given by `lines`. -/
def wait_for_prompt (val1 : List Char) (val2 : Option (List Char)) (timeout : Int)
    (store : Option (List Char)) (lines : List (List Char)) : ScanResult :=
  scanLines val1 val2 store lines timeout none none

/-! ### `nrf_cloud_provision.py`: data model and reconciliation

A device-list entry is the two-element list `[ <device_id>, <result_string> ]`
built by `read_prov_csv`; index `DEV_LIST_ID_IDX = 0` is the id and
`DEV_LIST_RES_IDX = 1` the result string. -/

/-- One provisioning CSV record: `[device_id, result_string]`. -/
structure Dev where
  id : String
  res : String
deriving DecidableEq, Repr

/-- `ProvisionResult` enum of `nrf_cloud_provision.py`. -/
inductive ProvisionResult where
  | PERFORMED_SUCCESSFULLY
  | PERFORMED_WITH_ERRORS
  | PERFORMED_RESULTS_NOT_CONFIRMED
  | NOT_PERFORMED_NO_API_KEY
  | NOT_PERFORMED_BAD_FILE_PATH
  | NOT_PERFORMED_INVALID_CSV_FORMAT
  | NOT_PERFORMED_DEVICE_EXISTS
  | NOT_PERFORMED_DEV_CHK_FAILED
  | NOT_PERFORMED_PROVDEV_CALL_FAILED
deriving DecidableEq, Repr

/-- In-place update `dev_list[n][DEV_LIST_RES_IDX] = v` for a valid
(non-negative) index `n`. -/
def setRes : List Dev → Nat → String → List Dev
  | [], _, _ => []
  | d :: t, 0, v => { d with res := v } :: t
  | d :: t, n + 1, v => d :: setRes t n v

/-- `update_device_list_ok`: add `'OK'` to any device without an error. -/
def update_device_list_ok (dev_list : List Dev) : List Dev :=
  dev_list.map (fun d => if d.res.length = 0 then { d with res := "OK" } else d)

/-- The value stored for one error entry: an empty or single-space error
message becomes `'ERROR_UNKNOWN'`. -/
def stampVal (err_item : String) : String :=
  if err_item.length = 0 ∨ err_item = " " then "ERROR_UNKNOWN" else err_item

/-- One iteration of the inner `for dev_idx in idx_list` loop of
`update_device_list_err`.  `i = dev_idx - 1`; `i >= list_sz` is reported
out of range (the printed index is recorded in the warning list) and
skipped; otherwise Python evaluates `dev_list[i]`, which for negative `i`
indexes from the end of the list and raises `IndexError` (modelled as
`none`) when `len(dev_list) + i < 0`. -/
def applyIdx (list_sz : Nat) (err_item : String) (st : List Dev × List Int)
    (dev_idx : Int) : Option (List Dev × List Int) :=
  let i : Int := dev_idx - 1
  if i ≥ (list_sz : Int) then
    -- print("Reported device index out of range: {}".format(dev_idx))
    some (st.1, st.2 ++ [dev_idx])
  else
    let eff : Int := if 0 ≤ i then i else (st.1.length : Int) + i
    if 0 ≤ eff ∧ eff < (st.1.length : Int) then
      some (setRes st.1 eff.toNat (stampVal err_item), st.2)
    else none

/-- The inner `for dev_idx in idx_list` loop. -/
def applyIdxList (list_sz : Nat) (err_item : String) :
    List Int → List Dev × List Int → Option (List Dev × List Int)
  | [], st => some st
  | i :: rest, st =>
    match applyIdx list_sz err_item st i with
    | none => none
    | some st' => applyIdxList list_sz err_item rest st'

/-- The outer `for err_item in err_dict` loop (insertion order of the
decoded JSON object). -/
def applyErrDict (list_sz : Nat) :
    List (String × List Int) → List Dev × List Int → Option (List Dev × List Int)
  | [], st => some st
  | (err_item, idx_list) :: rest, st =>
    match applyIdxList list_sz err_item idx_list st with
    | none => none
    | some st' => applyErrDict list_sz rest st'

/-- `update_device_list_err(dev_list, err_dict)`: stamp each referenced
record with its error message, then run `update_device_list_ok`.
Returns the updated list together with the out-of-range warnings printed,
or `none` when a negative index raises `IndexError`. -/
def update_device_list_err (dev_list : List Dev) (err_dict : List (String × List Int)) :
    Option (List Dev × List Int) :=
  match applyErrDict dev_list.length err_dict (dev_list, []) with
  | none => none
  | some (dl, warns) => some (update_device_list_ok dl, warns)

/-! ### `parse_err_msg` -/

/-- `ERR_FIND_FIRST_STR` constant. -/
def ERR_FIND_FIRST_STR : List Char := "(1-based)]: ".data

/-- `ERR_FIND_END_STR` constant (the three characters dot, double quote,
closing brace). -/
def ERR_FIND_END_STR : List Char := ".\"\x7d".data

/-- First whitespace-separated all-digit token of the prefix text, as the
reported error count (`err_cnt` stays `0` when none exists). -/
def firstDigitTokenVal (cs : List Char) : Int :=
  match (pySplitWs cs).find? isDigitTok with
  | none => 0
  | some t => (digitsVal t : Int)

/-- `parse_err_msg(err_str)`.  The final two steps — `ast.literal_eval`
un-escaping of one level of quote escaping and `json.loads` of the
resulting text into a message-to-index-list mapping — are stdlib calls,
abstracted into an injected `decoder` (`none` models a raised exception,
which propagates out of `parse_err_msg`).  Result: `none` = exception
propagated; `some none` = the function returned Python `None` (marker
missing); `some (some (err_cnt, err_dict))` = normal return. -/
def parse_err_msg (decoder : String → Option (List (String × List Int)))
    (err_str : List Char) : Option (Option (Int × List (String × List Int))) :=
  let err_begin_idx := pyFind ERR_FIND_FIRST_STR err_str
  let err_end_idx := pyRfind ERR_FIND_END_STR err_str
  if err_begin_idx = -1 ∨ err_end_idx = -1 then
    -- print("Unhandled error response format"); return
    some none
  else
    let err_begin_str := err_str.take err_begin_idx.toNat
    let err_cnt := firstDigitTokenVal err_begin_str
    let err_json_str :=
      (err_str.take err_end_idx.toNat).drop (err_begin_idx.toNat + ERR_FIND_FIRST_STR.length)
    match decoder (String.mk err_json_str) with
    | none => none
    | some d => some (some (err_cnt, d))

/-! ### `get_provisioning_results` -/

/-- `get_provisioning_results(api_key, bulk_ops_req_id)` with the
successive poll responses injected as `polls` (`none` = HTTP status other
than 200, `some st` = 200 with body status `st`).  Returns the list of
`Provisioning status: ...` log lines printed and the result: `none` = the
trace ran out while the loop was still polling, `some none` = the
function returned Python `None`, `some (some st)` = it returned the
response with terminal status `st`. -/
def get_provisioning_results : List (Option String) → List String × Option (Option String)
  | [] => ([], none)
  | poll :: rest =>
    match poll with
    | none =>
      -- print("Failed to fetch provisioning result"); return None
      ([], some none)
    | some st =>
      if st = "IN_PROGRESS" ∨ st = "PENDING" then
        let r := get_provisioning_results rest
        (("Provisioning status: " ++ st) :: r.1, r.2)
      else
        (["Provisioning status: " ++ st], some (some st))

/-- Spec-side characterisation (for the amended claim C5): the statuses of
every successful fetch performed by the poll loop, in order, up to and
including the terminal one. -/
def statusesFetched : List (Option String) → List String
  | [] => []
  | none :: _ => []
  | some st :: rest =>
    if st = "IN_PROGRESS" ∨ st = "PENDING" then st :: statusesFetched rest else [st]

/-! ### Result-determination tail of `do_provisioning`

Models lines 299–333: everything from the `get_provisioning_results`
call to the returned `ProvisionResult`.  `bulk_results` is `none` when
`get_provisioning_results` returned `None`, otherwise the pair of the
bulk-operation `status` string and the outcome of the
`requests.get(errorSummaryUrl)` fetch (`none` = HTTP status other than
200, `some body` = 200 with `body` as response text). -/

/-- Observable outcome of the tail of `do_provisioning`: either an
uncaught exception, or the returned `ProvisionResult` together with the
`device_list` passed to `save_results` (`none` when the error output
could not be accessed or only the bulk-ops id was saved) and the final
`err_count`. -/
inductive TailOutcome where
  | crash : TailOutcome
  | done (res : ProvisionResult) (dev_list : Option (List Dev)) (err_count : Int) : TailOutcome
deriving DecidableEq

/-- Tail of `do_provisioning` (lines 299–333). -/
def do_provisioning_tail (decoder : String → Option (List (String × List Int)))
    (device_list : List Dev) (bulk_results : Option (String × Option String)) :
    TailOutcome :=
  match bulk_results with
  | none =>
    -- save_bulk_ops_id(...); return PERFORMED_RESULTS_NOT_CONFIRMED
    .done .PERFORMED_RESULTS_NOT_CONFIRMED none 0
  | some (status, errorFetch) =>
    -- err_count = 0, then the status dispatch, then save_results and the
    -- final `if err_count == 0` return
    let step : Option (Option (List Dev) × Int) :=
      if status = "FAILED" then
        match errorFetch with
        | some body =>
          match parse_err_msg decoder body.data with
          | none => none            -- exception inside parse_err_msg propagates
          | some none => none       -- `err_count, err_json = None` raises TypeError
          | some (some (err_cnt, err_json)) =>
            match update_device_list_err device_list err_json with
            | none => none          -- IndexError propagates
            | some (dl, _) => some (some dl, err_cnt)
        | none =>
          -- print("Could not access error output: ..."); device_list = None
          some (none, 0)
      else if status = "SUCCEEDED" then some (some (update_device_list_ok device_list), 0)
      else
        -- print("Unhandled bulk ops status: ...")
        some (some device_list, 0)
    match step with
    | none => .crash
    | some (dl, err_count) =>
      .done (if err_count = 0 then .PERFORMED_SUCCESSFULLY else .PERFORMED_WITH_ERRORS)
        dl err_count

/-! ## Theorems -/

/-! ### Helper lemmas about the device-list update machinery -/

/-- `setRes` preserves the list length. -/
theorem length_setRes (v : String) : ∀ (dl : List Dev) (n : Nat),
    (setRes dl n v).length = dl.length := by
  intro dl
  induction dl with
  | nil => intro n; rfl
  | cons d t ih =>
    intro n
    cases n with
    | zero => simp [setRes]
    | succ n => simp [setRes, ih n]

/-- Optional lookup after `setRes`: position `n` is updated, all others
are unchanged. -/
theorem getElem?_setRes (v : String) : ∀ (dl : List Dev) (n j : Nat),
    (setRes dl n v)[j]? =
      if j = n then (dl[j]?).map (fun d => { d with res := v }) else dl[j]? := by
  intro dl
  induction dl with
  | nil =>
    intro n j
    simp [setRes]
  | cons d t ih =>
    intro n j
    cases n with
    | zero =>
      cases j with
      | zero => simp [setRes]
      | succ j => simp [setRes]
    | succ n =>
      cases j with
      | zero => simp [setRes]
      | succ j => simpa [setRes] using ih n j

/-- Every record emitted by `update_device_list_ok` has a nonempty
result string. -/
theorem res_ne_empty_of_mem_update_ok (dl : List Dev) (d : Dev)
    (hd : d ∈ update_device_list_ok dl) : d.res ≠ "" := by
  unfold update_device_list_ok at hd
  rcases List.mem_map.1 hd with ⟨e, -, rfl⟩
  by_cases h : e.res.length = 0
  · simp [h]
  · intro hcontra
    simp only [h, if_false] at hcontra
    rw [hcontra] at h
    exact h rfl

/-- If a needle is not contained in a string, Python `find` returns `-1`. -/
theorem pyFind_of_not_contains (sub : List Char) : ∀ (s : List Char),
    listContains s sub = false → pyFind sub s = -1 := by
  intro s
  induction s with
  | nil =>
    intro h
    have hne : ¬ sub = [] := by
      intro hs
      subst hs
      simp [listContains, List.isPrefixOf] at h
    simp [pyFind, hne]
  | cons c t ih =>
    intro h
    unfold listContains at h
    simp only [Bool.or_eq_false_iff] at h
    simp [pyFind, h.1, ih h.2]

/-- If a needle is not contained in a string, Python `rfind` returns `-1`. -/
theorem pyRfind_of_not_contains (sub : List Char) : ∀ (s : List Char),
    listContains s sub = false → pyRfind sub s = -1 := by
  intro s
  induction s with
  | nil =>
    intro h
    have hne : ¬ sub = [] := by
      intro hs
      subst hs
      simp [listContains, List.isPrefixOf] at h
    simp [pyRfind, hne]
  | cons c t ih =>
    intro h
    unfold listContains at h
    simp only [Bool.or_eq_false_iff] at h
    simp [pyRfind, h.1, ih h.2]

/-- Running the inner index loop of `update_device_list_err` with a single
message over in-range (1-based) positions: no `IndexError`, no warning,
and each listed position `p` carries the stamped message at `p - 1` while
all others are untouched. -/
theorem applyIdxList_inRange (m : String) :
    ∀ (ps : List Int) (dl : List Dev) (w : List Int) (sz : Nat),
      dl.length = sz →
      (∀ p ∈ ps, 1 ≤ p ∧ p ≤ (sz : Int)) →
      ∃ out, applyIdxList sz m ps (dl, w) = some (out, w) ∧ out.length = sz ∧
        ∀ j : Nat, out[j]? =
          if ((j : Int) + 1) ∈ ps then
            (dl[j]?).map (fun d => { d with res := stampVal m })
          else dl[j]? := by
  intro ps
  induction ps with
  | nil =>
    intro dl w sz hlen _
    exact ⟨dl, rfl, hlen, by simp⟩
  | cons p rest ih =>
    intro dl w sz hlen hrange
    have hp : 1 ≤ p ∧ p ≤ (sz : Int) := hrange p (List.mem_cons_self p rest)
    have hnotrep : ¬ (p - 1 ≥ (sz : Int)) := by omega
    have heff1 : (0 : Int) ≤ p - 1 := by omega
    have heff2 : p - 1 < ((dl.length : Nat) : Int) := by
      rw [hlen]; omega
    have happly :
        applyIdx sz m (dl, w) p =
          some (setRes dl (p - 1).toNat (stampVal m), w) := by
      unfold applyIdx
      rw [if_neg hnotrep, if_pos heff1, if_pos ⟨heff1, heff2⟩]
    have hlen1 : (setRes dl (p - 1).toNat (stampVal m)).length = sz := by
      rw [length_setRes, hlen]
    have hrange1 : ∀ q ∈ rest, 1 ≤ q ∧ q ≤ (sz : Int) := by
      intro q hq; exact hrange q (List.mem_cons_of_mem p hq)
    rcases ih (setRes dl (p - 1).toNat (stampVal m)) w sz hlen1 hrange1 with
      ⟨out, hout, houtlen, hget⟩
    refine ⟨out, ?_, houtlen, ?_⟩
    · simp only [applyIdxList, happly, hout]
    · intro j
      have hset := getElem?_setRes (stampVal m) dl (p - 1).toNat j
      by_cases hjrest : ((j : Int) + 1) ∈ rest
      · have hmem : ((j : Int) + 1) ∈ p :: rest := List.mem_cons_of_mem p hjrest
        rw [hget j, if_pos hjrest, if_pos hmem, hset]
        by_cases hj : j = (p - 1).toNat
        · rw [if_pos hj]
          cases dl[j]? <;> simp
        · rw [if_neg hj]
      · rw [hget j, if_neg hjrest, hset]
        by_cases hj : j = (p - 1).toNat
        · have hjp : ((j : Int) + 1) = p := by omega
          have hmem : ((j : Int) + 1) ∈ p :: rest := by
            rw [hjp]; exact List.mem_cons_self p rest
          rw [if_pos hj, if_pos hmem]
        · have hjp : ¬ ((j : Int) + 1) = p := by omega
          have hmem : ¬ ((j : Int) + 1) ∈ p :: rest := by
            intro hc
            rcases List.mem_cons.1 hc with hc | hc
            · exact hjp hc
            · exact hjrest hc
          rw [if_neg hj, if_neg hmem]

/-- `update_device_list_err` with a single `(message, positions)` entry,
all positions in range: no crash, no warning, the listed positions carry
the stamped message post-`OK` pass, everything else is the `OK`-filled
original. -/
theorem update_err_single_msg (m : String) (ps : List Int) (dl : List Dev)
    (hrange : ∀ p ∈ ps, 1 ≤ p ∧ p ≤ ((dl.length : Nat) : Int)) :
    ∃ out, update_device_list_err dl [(m, ps)] = some (out, []) ∧
      out.length = dl.length ∧
      ∀ j : Nat, out[j]? =
        (if ((j : Int) + 1) ∈ ps then
            (dl[j]?).map (fun d => { d with res := stampVal m })
          else dl[j]?).map
          (fun d => if d.res.length = 0 then { d with res := "OK" } else d) := by
  rcases applyIdxList_inRange m ps dl [] dl.length rfl hrange with
    ⟨out0, hout0, hlen0, hget0⟩
  refine ⟨update_device_list_ok out0, ?_, ?_, ?_⟩
  · simp only [update_device_list_err, applyErrDict, hout0]
  · simp [update_device_list_ok, hlen0]
  · intro j
    simp only [update_device_list_ok, List.getElem?_map, hget0 j]

/-- Claim C2 (counterexample): calling `wait_for_prompt` with
`timeout = 0` does not perform one read attempt and return a timed-out
outcome; even with a (timed-out) read available from the port it raises
`UnboundLocalError` at `lf_done = b'\n' in line`, because the
`while not found and timeout != 0` loop is skipped entirely and `line`
is never assigned. -/
theorem wait_for_prompt_zero_timeout_cex :
    wait_for_prompt "OK".data none 0 none [[]] = ScanResult.crash ∧
      ScanResult.crash ≠ ScanResult.ok false none 0 := by
  exact ⟨rfl, by decide⟩

/-- Claim C2 (amended): with `timeout = 0` the scan loop of
`wait_for_prompt` is never entered — zero read attempts are made,
whatever the port would have delivered — and the call raises
`UnboundLocalError` instead of returning an outcome. -/
theorem wait_for_prompt_zero_timeout (val1 : List Char) (val2 store : Option (List Char))
    (lines : List (List Char)) :
    wait_for_prompt val1 val2 0 store lines = ScanResult.crash := by
  cases lines <;> simp [wait_for_prompt, scanLines]

/-- Claim C7: a response line that contains both the success token and the
failure token is classified as `Success` (`retval = True`): the success
check comes first in `wait_for_prompt`, so it wins, the scan stops on
that line (the rest of the stream is not read), and the capture candidate
is left untouched. -/
theorem scan_success_precedence (val1 val2 : List Char) (store : Option (List Char))
    (l : List Char) (rest : List (List Char)) (t : Int) (out last : Option (List Char))
    (ht : t ≠ 0) (hcrlf : l ≠ ['\r', '\n']) (hne : l ≠ [])
    (hsucc : listContains l val1 = true) (_hfail : listContains l val2 = true) :
    scanLines val1 (some val2) store (l :: rest) t out last = ScanResult.ok true out t := by
  simp [scanLines, ht, hcrlf, hne, hsucc]

/-- Witness for claim C7 at a concrete input: the line `CMD OK ERROR`
contains both `OK` and `ERROR` and is classified as success. -/
theorem scan_success_precedence_witness :
    scanLines "OK".data (some "ERROR".data) none ["CMD OK ERROR".data] 15 none none =
      ScanResult.ok true none 15 :=
  scan_success_precedence "OK".data "ERROR".data none "CMD OK ERROR".data [] 15 none none
    (by decide) (by decide) (by decide) (by decide) (by decide)

/-- Claim C9: capture semantics of `wait_for_prompt`.
(1) A line matching the capture token (and neither the success nor the
failure token) overwrites the stored capture candidate with itself and
the scan continues.
(2) A line containing the success token terminates the scan with the
previously stored candidate — the line itself is not stored, even when it
also matches the capture token.
(3) The same for a provided failure token.
(4) End to end: with two capture matches before the success line, the
returned capture is the *last* one read. -/
theorem scan_capture_semantics :
    (∀ (val1 : List Char) (val2 : Option (List Char)) (s l : List Char)
        (rest : List (List Char)) (t : Int) (out last : Option (List Char)),
      t ≠ 0 → l ≠ ['\r', '\n'] → l ≠ [] →
      listContains l val1 = false → optContains val2 l = false →
      optCapture (some s) l = true →
      scanLines val1 val2 (some s) (l :: rest) t out last =
        scanLines val1 val2 (some s) rest t (some l) (some l)) ∧
    (∀ (val1 : List Char) (val2 : Option (List Char)) (s l : List Char)
        (rest : List (List Char)) (t : Int) (out last : Option (List Char)),
      t ≠ 0 → l ≠ ['\r', '\n'] → l ≠ [] →
      listContains l val1 = true →
      scanLines val1 val2 (some s) (l :: rest) t out last = ScanResult.ok true out t) ∧
    (∀ (val1 val2 s l : List Char) (rest : List (List Char)) (t : Int)
        (out last : Option (List Char)),
      t ≠ 0 → l ≠ ['\r', '\n'] → l ≠ [] →
      listContains l val1 = false → listContains l val2 = true →
      scanLines val1 (some val2) (some s) (l :: rest) t out last =
        ScanResult.ok false out t) ∧
    wait_for_prompt "OK".data none 15 (some "ID".data)
        ["ID: 1\r\n".data, "ID: 2\r\n".data, "OK\r\n".data] =
      ScanResult.ok true (some "ID: 2\r\n".data) 15 := by
  refine ⟨?_, ?_, ?_, ?_⟩
  · intro val1 val2 s l rest t out last ht hcrlf hne hsucc hfail hcap
    simp [scanLines, ht, hcrlf, hne, hsucc, hfail, hcap]
  · intro val1 val2 s l rest t out last ht hcrlf hne hsucc
    simp [scanLines, ht, hcrlf, hne, hsucc]
  · intro val1 val2 s l rest t out last ht hcrlf hne hsucc hfail
    simp [scanLines, optContains, ht, hcrlf, hne, hsucc, hfail]
  · decide

/-- Witness for claim C9 at a concrete input: a capture-matching,
non-terminating line overwrites the candidate and scanning continues. -/
theorem scan_capture_semantics_witness :
    scanLines "OK".data none (some "ID".data) ["ID: 9".data] 15 none none =
      scanLines "OK".data none (some "ID".data) [] 15 (some "ID: 9".data)
        (some "ID: 9".data) :=
  scan_capture_semantics.1 "OK".data none "ID".data "ID: 9".data [] 15 none none
    (by decide) (by decide) (by decide) (by decide) (by decide) (by decide)

/-- Claim C5 (counterexample): `get_provisioning_results` prints a
`Provisioning status: ...` line on *every* successful poll, not only on
status transitions: two consecutive `PENDING` polls produce two identical
consecutive log entries. -/
theorem get_provisioning_results_logs_cex :
    (get_provisioning_results [some "PENDING", some "PENDING", some "SUCCEEDED"]).1 =
      ["Provisioning status: PENDING", "Provisioning status: PENDING",
        "Provisioning status: SUCCEEDED"] ∧
    (get_provisioning_results [some "PENDING", some "PENDING", some "SUCCEEDED"]).1[0]? =
      (get_provisioning_results [some "PENDING", some "PENDING", some "SUCCEEDED"]).1[1]? := by
  exact ⟨rfl, rfl⟩

/-- Claim C5 (amended): a status-log entry is emitted on every poll
iteration whose fetch succeeds, regardless of whether the status changed:
the log lines of `get_provisioning_results` are exactly
`Provisioning status: <st>` for every successfully fetched status, in
order, up to and including the terminal one. -/
theorem get_provisioning_results_logs_every_poll (polls : List (Option String)) :
    (get_provisioning_results polls).1 =
      (statusesFetched polls).map (fun st => "Provisioning status: " ++ st) := by
  induction polls with
  | nil => simp [get_provisioning_results, statusesFetched]
  | cons p rest ih =>
    cases p with
    | none => simp [get_provisioning_results, statusesFetched]
    | some st =>
      by_cases h : st = "IN_PROGRESS" ∨ st = "PENDING"
      · simp [get_provisioning_results, statusesFetched, h, ih]
      · simp [get_provisioning_results, statusesFetched, h]

/-- Claim C1: when the bulk job terminates `FAILED` and the error-summary
fetch fails (HTTP status other than 200), `do_provisioning` leaves
`err_count = 0` and `device_list = None`, and therefore returns
`PERFORMED_SUCCESSFULLY` — the success result — instead of the distinct
`PERFORMED_RESULTS_NOT_CONFIRMED` outcome; the records are not stamped
(the saved device list is `None`). -/
theorem do_provisioning_tail_failed_fetch_returns_success
    (decoder : String → Option (List (String × List Int))) (device_list : List Dev) :
    do_provisioning_tail decoder device_list (some ("FAILED", none)) =
      TailOutcome.done ProvisionResult.PERFORMED_SUCCESSFULLY none 0 ∧
    ProvisionResult.PERFORMED_SUCCESSFULLY ≠
      ProvisionResult.PERFORMED_RESULTS_NOT_CONFIRMED := by
  exact ⟨rfl, by decide⟩

/-- Claim C8: after a reconciliation pass — either `update_device_list_ok`
alone (job `SUCCEEDED`) or `update_device_list_err` followed by its
internal `update_device_list_ok` (job `FAILED` with the error report
fetched and parsed, and no crash) — every record's result string is
nonempty: an error message, `ERROR_UNKNOWN`, or the literal `OK`. -/
theorem reconciled_res_nonempty :
    (∀ (dl : List Dev) (d : Dev), d ∈ update_device_list_ok dl → d.res ≠ "") ∧
    (∀ (dl : List Dev) (errs : List (String × List Int)) (out : List Dev)
        (warns : List Int) (d : Dev),
      update_device_list_err dl errs = some (out, warns) → d ∈ out → d.res ≠ "") := by
  refine ⟨res_ne_empty_of_mem_update_ok, ?_⟩
  intro dl errs out warns d hupd hd
  unfold update_device_list_err at hupd
  cases happly : applyErrDict dl.length errs (dl, []) with
  | none => rw [happly] at hupd; exact absurd hupd (by simp)
  | some st =>
    rw [happly] at hupd
    cases st with
    | mk dl' w =>
      simp only [Option.some.injEq, Prod.mk.injEq] at hupd
      rcases hupd with ⟨hout, -⟩
      rw [← hout] at hd
      exact res_ne_empty_of_mem_update_ok dl' d hd

/-- Witness for claim C8 at a concrete input. -/
theorem reconciled_res_nonempty_witness :
    (Dev.mk "a" "OK").res ≠ "" :=
  reconciled_res_nonempty.1 [⟨"a", ""⟩] ⟨"a", "OK"⟩ (by decide)

/-- Claim C6: reconciliation of in-range error positions.
(1) General law for one message: for a batch whose result strings are all
initially empty and an error entry `(m, ps)` with `m` neither empty nor a
single space and every 1-based position of `ps` within `1..N`, each listed
position `p` ends with result `m` at record `p - 1` (0-based) and every
other record ends `OK`, with no warning and no crash.
(2) The instance of the claim: positions `{2, 5}` under `BAD_CERT` on a
batch of `N ≥ 5` records yield `BAD_CERT` exactly at 0-based records 1
and 4 and `OK` everywhere else. -/
theorem update_err_positions :
    (∀ (ids : List String) (m : String) (ps : List Int),
      m.length ≠ 0 → m ≠ " " →
      (∀ p ∈ ps, 1 ≤ p ∧ p ≤ (ids.length : Int)) →
      ∃ out, update_device_list_err (ids.map fun s => ⟨s, ""⟩) [(m, ps)] =
          some (out, []) ∧
        ∀ j : Nat, j < ids.length → ∃ d, out[j]? = some d ∧
          d.res = if ((j : Int) + 1) ∈ ps then m else "OK") ∧
    (∀ ids : List String, 5 ≤ ids.length →
      ∃ out, update_device_list_err (ids.map fun s => ⟨s, ""⟩) [("BAD_CERT", [2, 5])] =
          some (out, []) ∧
        ∀ j : Nat, j < ids.length → ∃ d, out[j]? = some d ∧
          d.res = if j = 1 ∨ j = 4 then "BAD_CERT" else "OK") := by
  have hmain : ∀ (ids : List String) (m : String) (ps : List Int),
      m.length ≠ 0 → m ≠ " " →
      (∀ p ∈ ps, 1 ≤ p ∧ p ≤ (ids.length : Int)) →
      ∃ out, update_device_list_err (ids.map fun s => ⟨s, ""⟩) [(m, ps)] =
          some (out, []) ∧
        ∀ j : Nat, j < ids.length → ∃ d, out[j]? = some d ∧
          d.res = if ((j : Int) + 1) ∈ ps then m else "OK" := by
    intro ids m ps hmlen hmsp hrange
    have hstamp : stampVal m = m := by
      unfold stampVal
      rw [if_neg]
      intro hc
      rcases hc with hc | hc
      · exact hmlen hc
      · exact hmsp hc
    have hlenmap : (ids.map fun s => (⟨s, ""⟩ : Dev)).length = ids.length :=
      List.length_map ids _
    have hrange' : ∀ p ∈ ps,
        1 ≤ p ∧ p ≤ (((ids.map fun s => (⟨s, ""⟩ : Dev)).length : Nat) : Int) := by
      intro p hp
      rw [hlenmap]
      exact hrange p hp
    rcases update_err_single_msg m ps (ids.map fun s => ⟨s, ""⟩) hrange' with
      ⟨out, hout, -, hget⟩
    refine ⟨out, hout, ?_⟩
    intro j hj
    have hjid : (ids.map fun s => (⟨s, ""⟩ : Dev))[j]? = some ⟨ids[j], ""⟩ := by
      rw [List.getElem?_map, List.getElem?_eq_getElem hj]
      rfl
    by_cases hmem : ((j : Int) + 1) ∈ ps
    · refine ⟨⟨ids[j], m⟩, ?_, by rw [if_pos hmem]⟩
      rw [hget j, if_pos hmem, hjid, hstamp]
      simp only [Option.map_some']
      rw [if_neg]
      intro hc
      exact hmlen (by simpa using hc)
    · refine ⟨⟨ids[j], "OK"⟩, ?_, by rw [if_neg hmem]⟩
      rw [hget j, if_neg hmem, hjid]
      simp only [Option.map_some']
      rw [if_pos (show ("" : String).length = 0 from rfl)]
  refine ⟨hmain, ?_⟩
  intro ids hN
  have hBClen : ("BAD_CERT" : String).length ≠ 0 := by decide
  have hBCsp : ("BAD_CERT" : String) ≠ " " := by decide
  have hrange : ∀ p ∈ ([2, 5] : List Int), 1 ≤ p ∧ p ≤ (ids.length : Int) := by
    intro p hp
    rcases List.mem_cons.1 hp with hp | hp
    · subst hp; constructor <;> omega
    · rcases List.mem_cons.1 hp with hp | hp
      · subst hp; constructor <;> omega
      · exact absurd hp (List.not_mem_nil p)
  rcases hmain ids "BAD_CERT" [2, 5] hBClen hBCsp hrange with ⟨out, hout, hget⟩
  refine ⟨out, hout, ?_⟩
  intro j hj
  rcases hget j hj with ⟨d, hd, hres⟩
  refine ⟨d, hd, ?_⟩
  rw [hres]
  have hiff : (((j : Int) + 1) ∈ ([2, 5] : List Int)) ↔ (j = 1 ∨ j = 4) := by
    simp only [List.mem_cons, List.not_mem_nil, or_false]
    omega
  exact if_congr hiff rfl rfl

/-- Witness for claim C6 at a concrete input: a batch of five records. -/
theorem update_err_positions_witness :
    ∃ out, update_device_list_err
        ((["a", "b", "c", "d", "e"] : List String).map fun s => ⟨s, ""⟩)
        [("BAD_CERT", [2, 5])] = some (out, []) ∧
      ∀ j : Nat, j < (["a", "b", "c", "d", "e"] : List String).length →
        ∃ d, out[j]? = some d ∧
          d.res = if j = 1 ∨ j = 4 then "BAD_CERT" else "OK" :=
  update_err_positions.2 ["a", "b", "c", "d", "e"] (by decide)

/-- Claim C10: an error entry whose message is empty or a single space
stamps each referenced in-range record with the literal `ERROR_UNKNOWN`
instead of the raw message, so the stamped result is still nonempty. -/
theorem update_err_blank_message (dl : List Dev) (m : String) (p : Int)
    (hm : m = "" ∨ m = " ") (hp1 : 1 ≤ p) (hp2 : p ≤ (dl.length : Int)) :
    ∃ out, update_device_list_err dl [(m, [p])] = some (out, []) ∧
      ∃ d, out[(p - 1).toNat]? = some d ∧ d.res = "ERROR_UNKNOWN" := by
  have hstamp : stampVal m = "ERROR_UNKNOWN" := by
    rcases hm with hm | hm <;> subst hm <;> decide
  have hrange : ∀ q ∈ ([p] : List Int), 1 ≤ q ∧ q ≤ ((dl.length : Nat) : Int) := by
    intro q hq
    rcases List.mem_cons.1 hq with hq | hq
    · subst hq; exact ⟨hp1, hp2⟩
    · exact absurd hq (List.not_mem_nil q)
  rcases update_err_single_msg m [p] dl hrange with ⟨out, hout, -, hget⟩
  refine ⟨out, hout, ?_⟩
  have hj : (p - 1).toNat < dl.length := by omega
  have hmem : (((p - 1).toNat : Int) + 1) ∈ ([p] : List Int) := by
    have : ((p - 1).toNat : Int) + 1 = p := by omega
    rw [this]
    exact List.mem_cons_self p []
  rcases List.getElem?_eq_some_iff.2 ⟨hj, rfl⟩ with hdl
  refine ⟨⟨dl[(p - 1).toNat].id, "ERROR_UNKNOWN"⟩, ?_, rfl⟩
  rw [hget ((p - 1).toNat), if_pos hmem, hdl, hstamp]
  simp only [Option.map_some']
  rw [if_neg (by decide)]

/-- Witness for claim C10 at a concrete input. -/
theorem update_err_blank_message_witness :
    ∃ out, update_device_list_err [⟨"d1", ""⟩] [("", [1])] = some (out, []) ∧
      ∃ d, out[((1 : Int) - 1).toNat]? = some d ∧ d.res = "ERROR_UNKNOWN" :=
  update_err_blank_message [⟨"d1", ""⟩] "" 1 (Or.inl rfl) (by decide) (by decide)

/-- Claim C3: out-of-range positions are *not* all discarded.  A position
greater than `N` is indeed warned about and dropped (third conjunct), but
position `0` becomes Python index `-1` and silently stamps the *last*
record of the batch (first conjunct), and a sufficiently negative
position raises `IndexError` and crashes the reconciliation (second
conjunct, modelled as `none`). -/
theorem update_err_out_of_range_behavior :
    update_device_list_err [⟨"d1", ""⟩, ⟨"d2", ""⟩] [("E", [0])] =
      some ([⟨"d1", "OK"⟩, ⟨"d2", "E"⟩], []) ∧
    update_device_list_err [⟨"d1", ""⟩] [("E", [-1])] = none ∧
    update_device_list_err [⟨"d1", ""⟩, ⟨"d2", ""⟩] [("E", [7])] =
      some ([⟨"d1", "OK"⟩, ⟨"d2", "OK"⟩], [7]) := by
  exact ⟨rfl, rfl, rfl⟩

/-- Claim C4: on an error-summary text in which the begin marker or the
end marker is absent, `parse_err_msg` returns Python `None` (first
conjunct, no error report produced) — but `do_provisioning` then crashes
with a `TypeError` while unpacking `err_count, err_json = None` instead
of degrading to a results-unconfirmed outcome (second conjunct). -/
theorem parse_err_msg_missing_marker (decoder : String → Option (List (String × List Int)))
    (device_list : List Dev) (s : String)
    (h : listContains s.data ERR_FIND_FIRST_STR = false ∨
      listContains s.data ERR_FIND_END_STR = false) :
    parse_err_msg decoder s.data = some none ∧
    do_provisioning_tail decoder device_list (some ("FAILED", some s)) =
      TailOutcome.crash := by
  have hparse : parse_err_msg decoder s.data = some none := by
    unfold parse_err_msg
    rcases h with h | h
    · rw [if_pos (Or.inl (pyFind_of_not_contains _ _ h))]
    · rw [if_pos (Or.inr (pyRfind_of_not_contains _ _ h))]
  refine ⟨hparse, ?_⟩
  simp [do_provisioning_tail, hparse]

/-- Witness for claim C4 at a concrete input: an error body with no
marker at all. -/
theorem parse_err_msg_missing_marker_witness :
    parse_err_msg (fun _ => none) "3 errors occurred".data = some none ∧
    do_provisioning_tail (fun _ => none) [⟨"d1", ""⟩]
        (some ("FAILED", some "3 errors occurred")) = TailOutcome.crash :=
  parse_err_msg_missing_marker (fun _ => none) [⟨"d1", ""⟩] "3 errors occurred"
    (Or.inr (by decide))

end ProvisioningUtils
